import Mathlib

/-!
Verification of the authentication core of the Healthcare-appointment-system
repository (src/auth.py, src/models.py), shallowly embedded in Lean.

External collaborators (the email validator, the phone-number library,
the password hasher, the token signer, the persistence transaction) are
modelled as parameters gathered in an `Ext` record, or — where a claim's
truth depends on their behaviour and the spec describes it — as functions
whose doc comment starts with `Modelled from the spec:`.
-/

namespace HealthcareAuth

/-! ## Character classes of the password regular expression (src/auth.py line 127)

The pattern is an `r` string compiled by Python's `re` module:
`^(?=.*[A-Za-z])(?=.*\d)[A-Za-z\d]{8,}$`.  `[A-Za-z]` is the ASCII letters;
`\d` is modelled over the ASCII digits (the source pattern, compiled without
`re.ASCII`, additionally matches other Unicode decimal digits — all inputs
considered in this development are ASCII); `.` matches any character other
than a newline; `$` matches at the end of the string and also just before a
newline that ends the string. -/

def isAsciiLetter (c : Char) : Bool :=
  ('A' ≤ c && c ≤ 'Z') || ('a' ≤ c && c ≤ 'z')

def isReDigit (c : Char) : Bool :=
  c.isDigit

def isPwChar (c : Char) : Bool :=
  isAsciiLetter c || isReDigit c

/-- Semantics of a lookahead `(?=.*C)` evaluated at the start of the input:
some character satisfying the class `q` occurs with only non-newline
characters before it. -/
def reDotStarClass (q : Char → Bool) : List Char → Bool
  | [] => false
  | c :: cs => q c || (!(c == '\x0a') && reDotStarClass q cs)

/-- Semantics of `C*$` (a character class repeated zero or more times,
followed by the `$` anchor) against the whole remaining input, with Python's
`$` tolerating one final newline. -/
def classStarThenDollar (p : Char → Bool) : List Char → Bool
  | [] => true
  | c :: cs => ((c == '\x0a') && cs.isEmpty) || (p c && classStarThenDollar p cs)

/-- Semantics of `C{n,}$` against the whole remaining input. -/
def classRepThenDollar (p : Char → Bool) : Nat → List Char → Bool
  | 0, cs => classStarThenDollar p cs
  | _ + 1, [] => false
  | n + 1, c :: cs => p c && classRepThenDollar p n cs

/-- `validate_password` (src/auth.py lines 126-127):
`bool(re.match(r'^(?=.*[A-Za-z])(?=.*\d)[A-Za-z\d]{8,}$', password))`.
`re.match` anchors at the start; the two lookaheads consume nothing and are
evaluated at position 0; the body `[A-Za-z\d]{8,}` followed by `$` must cover
the rest of the input. -/
def validate_password (password : String) : Bool :=
  reDotStarClass isAsciiLetter password.data &&
  reDotStarClass isReDigit password.data &&
  classRepThenDollar isPwChar 8 password.data

/-- Removal of the single trailing newline that Python's `$` anchor
tolerates at the end of the subject string. -/
def stripFinalNewline : List Char → List Char
  | [] => []
  | [c] => if c = '\x0a' then [] else [c]
  | c :: cs => c :: stripFinalNewline cs

example : validate_password "abc12345" = true := by decide
example : validate_password "abcdefgh" = false := by decide
example : validate_password "short1" = false := by decide
example : validate_password "abc12345\x0a" = true := by decide
example : validate_password "abc 2345" = false := by decide

theorem classStarThenDollar_eq_all (p : Char → Bool) (cs : List Char) :
    classStarThenDollar p cs = (stripFinalNewline cs).all p := by
  induction cs with
  | nil => rfl
  | cons c cs ih =>
    cases cs with
    | nil =>
      by_cases h : c = '\x0a'
      · subst h; simp [classStarThenDollar, stripFinalNewline]
      · simp [classStarThenDollar, stripFinalNewline, h]
    | cons d ds =>
      rw [show classStarThenDollar p (c :: d :: ds)
            = (((c == '\x0a') && (d :: ds).isEmpty) || (p c && classStarThenDollar p (d :: ds)))
          from rfl,
          show stripFinalNewline (c :: d :: ds) = c :: stripFinalNewline (d :: ds) from rfl,
          ih]
      simp

theorem classRepThenDollar_eq_true_iff (p : Char → Bool) (hp : p '\x0a' = false)
    (cs : List Char) (n : Nat) :
    classRepThenDollar p n cs = true ↔
      n ≤ (stripFinalNewline cs).length ∧ (stripFinalNewline cs).all p = true := by
  induction cs generalizing n with
  | nil =>
    cases n with
    | zero => simp [classRepThenDollar, classStarThenDollar, stripFinalNewline]
    | succ m => simp [classRepThenDollar, stripFinalNewline]
  | cons c cs ih =>
    cases n with
    | zero =>
      rw [show classRepThenDollar p 0 (c :: cs) = classStarThenDollar p (c :: cs) from rfl,
          classStarThenDollar_eq_all]
      simp
    | succ m =>
      cases cs with
      | nil =>
        by_cases h : c = '\x0a'
        · subst h
          simp [classRepThenDollar, stripFinalNewline, hp]
        · cases m with
          | zero =>
            simp [classRepThenDollar, classStarThenDollar, stripFinalNewline, h]
          | succ k =>
            simp [classRepThenDollar, stripFinalNewline, h]
      | cons d ds =>
        rw [show classRepThenDollar p (m + 1) (c :: d :: ds)
              = (p c && classRepThenDollar p m (d :: ds)) from rfl]
        rw [show stripFinalNewline (c :: d :: ds) = c :: stripFinalNewline (d :: ds) from rfl]
        simp only [Bool.and_eq_true, ih, List.length_cons, List.all_cons]
        constructor
        · rintro ⟨h1, h2, h3⟩
          exact ⟨by omega, h1, h3⟩
        · rintro ⟨h1, h2, h3⟩
          exact ⟨h2, by omega, h3⟩

theorem stripFinalNewline_decomp (cs : List Char) :
    cs = stripFinalNewline cs ∨ cs = stripFinalNewline cs ++ ['\x0a'] := by
  induction cs with
  | nil => exact Or.inl rfl
  | cons c cs ih =>
    cases cs with
    | nil =>
      by_cases h : c = '\x0a'
      · subst h; right; simp [stripFinalNewline]
      · left; simp [stripFinalNewline, h]
    | cons d ds =>
      rw [show stripFinalNewline (c :: d :: ds) = c :: stripFinalNewline (d :: ds) from rfl]
      rcases ih with h | h
      · left
        exact congrArg (c :: ·) h
      · right
        rw [List.cons_append]
        exact congrArg (c :: ·) h

theorem ne_newline_of_all_isPwChar {l : List Char} (h : l.all isPwChar = true) :
    ∀ c ∈ l, c ≠ '\x0a' := by
  intro c hc he
  subst he
  exact absurd (List.all_eq_true.mp h _ hc) (by decide)

theorem reDotStarClass_append (q : Char → Bool) (core t : List Char)
    (hc : ∀ c ∈ core, c ≠ '\x0a') (ht : reDotStarClass q t = false) :
    reDotStarClass q (core ++ t) = core.any q := by
  induction core with
  | nil => simpa [reDotStarClass] using ht
  | cons c core ih =>
    have hb : (c == '\x0a') = false :=
      beq_eq_false_iff_ne.mpr (hc c (List.mem_cons_self _ _))
    have ih' := ih (fun x hx => hc x (List.mem_cons_of_mem _ hx))
    simp [reDotStarClass, hb, ih']

theorem lookahead_eq_any (q : Char → Bool) (hq : q '\x0a' = false) (cs : List Char)
    (hnl : ∀ c ∈ stripFinalNewline cs, c ≠ '\x0a') :
    reDotStarClass q cs = (stripFinalNewline cs).any q := by
  rcases stripFinalNewline_decomp cs with h | h
  · conv_lhs => rw [h]
    have h0 := reDotStarClass_append q (stripFinalNewline cs) [] hnl rfl
    simpa using h0
  · conv_lhs => rw [h]
    exact reDotStarClass_append q (stripFinalNewline cs) ['\x0a'] hnl
      (by simp [reDotStarClass, hq])

/-- C1 (amended): `validate_password` accepts a string exactly when, after
removing the single trailing newline that Python's `$` anchor tolerates, what
remains has length at least 8, consists only of letters and digits, and
contains at least one letter and at least one digit.  In particular
"abc12345" is accepted, "abcdefgh" and "short1" are rejected, and any string
containing a symbol, a space, or any non-final newline is rejected. -/
theorem C1_validate_password_characterization (s : String) :
    validate_password s = true ↔
      (8 ≤ (stripFinalNewline s.data).length ∧
       (stripFinalNewline s.data).all isPwChar = true ∧
       (stripFinalNewline s.data).any isAsciiLetter = true ∧
       (stripFinalNewline s.data).any isReDigit = true) := by
  unfold validate_password
  rw [Bool.and_eq_true, Bool.and_eq_true,
      classRepThenDollar_eq_true_iff isPwChar (by decide) s.data 8]
  constructor
  · rintro ⟨⟨hl, hd⟩, hlen, hall⟩
    have hnl : ∀ c ∈ stripFinalNewline s.data, c ≠ '\x0a' :=
      ne_newline_of_all_isPwChar hall
    refine ⟨hlen, hall, ?_, ?_⟩
    · rw [← lookahead_eq_any isAsciiLetter (by decide) s.data hnl]; exact hl
    · rw [← lookahead_eq_any isReDigit (by decide) s.data hnl]; exact hd
  · rintro ⟨hlen, hall, hl, hd⟩
    have hnl : ∀ c ∈ stripFinalNewline s.data, c ≠ '\x0a' :=
      ne_newline_of_all_isPwChar hall
    exact ⟨⟨by rw [lookahead_eq_any isAsciiLetter (by decide) s.data hnl]; exact hl,
            by rw [lookahead_eq_any isReDigit (by decide) s.data hnl]; exact hd⟩,
           hlen, hall⟩

/-- C1 counterexample: the string "abc12345" followed by a newline contains a
whitespace character and does not consist only of letters and digits, yet
`validate_password` accepts it — Python's `$` anchor matches just before a
trailing newline. -/
theorem C1_counterexample :
    validate_password "abc12345\x0a" = true ∧
    ("abc12345\x0a".data.all isPwChar) = false :=
  ⟨by decide, by decide⟩

/-! ## Phone normalisation and carrier validation (src/auth.py lines 95-124) -/

/-- `normalize_phone` (src/auth.py lines 104-112).  Python falsiness of a
string argument is emptiness; `re.sub(r"\D", "", phone)` keeps only the
digits (modelled over the ASCII digits); the `startswith("+254")` branch is
kept exactly as in the source even though the preceding substitution has
already removed every `+`. -/
def normalize_phone (phone : String) : String :=
  if phone = "" then "" else
  let d := phone.data.filter Char.isDigit
  if d.take 4 = ['+', '2', '5', '4'] then String.mk ('0' :: d.drop 4)
  else if d.take 3 = ['2', '5', '4'] ∧ d.length = 12 then String.mk ('0' :: d.drop 3)
  else String.mk d

/-- The spec's description of `normalizePhone`, stated for comparison with
the source function: strip the non-digit characters, then rewrite the
international prefix (a `254` that heads a twelve-digit string) to the local
leading-zero form. -/
def normalizePhoneSpec (phone : String) : String :=
  let d := phone.data.filter Char.isDigit
  if d.take 3 = ['2', '5', '4'] ∧ d.length = 12 then String.mk ('0' :: d.drop 3)
  else String.mk d

theorem filter_isDigit_take_ne_plus (l : List Char) :
    (l.filter Char.isDigit).take 4 ≠ ['+', '2', '5', '4'] := by
  intro h
  have hmem : '+' ∈ (l.filter Char.isDigit).take 4 := by rw [h]; simp
  have hmem' : '+' ∈ l.filter Char.isDigit := List.mem_of_mem_take hmem
  exact absurd (List.mem_filter.mp hmem').2 (by decide)

/-- C2: `normalize_phone` is a pure total function; on every input it keeps
exactly the digits and rewrites an international `254` prefix of a
twelve-digit string to the local leading-zero form (the `+254` test of the
source can never fire, `+` having been stripped); it sends "" to "" and
maps both "+254712345678" and "254712345678" to "0712345678". -/
theorem C2_normalize_phone :
    (∀ s : String, normalize_phone s = normalizePhoneSpec s) ∧
    normalize_phone "+254712345678" = "0712345678" ∧
    normalize_phone "254712345678" = "0712345678" ∧
    normalize_phone "" = "" := by
  refine ⟨?_, by decide, by decide, by decide⟩
  intro s
  unfold normalize_phone normalizePhoneSpec
  by_cases he : s = ""
  · subst he; rfl
  · rw [if_neg he, if_neg (filter_isDigit_take_ne_plus s.data)]

/-- `SAFARICOM_PREFIXES` (src/auth.py lines 95-102): the fixed allow-list of
carrier prefixes, transcribed verbatim. -/
def SAFARICOM_PREFIXES : List String :=
  ["0701", "0702", "0703", "0704", "0705", "0706", "0707", "0708", "0709",
   "0710", "0711", "0712", "0713", "0714", "0715", "0716", "0717", "0718", "0719",
   "0720", "0721", "0722", "0723", "0724", "0725", "0726", "0727", "0728", "0729",
   "0740", "0741", "0742", "0743", "0744", "0745", "0746", "0747", "0748", "0749",
   "0757", "0758", "0768", "0769", "0790", "0791", "0792", "0793", "0794", "0795",
   "0796", "0797", "0798", "0799", "0110", "0111", "0112", "0113", "0114", "0115"]

/-- `is_valid_safaricom_phone` (src/auth.py lines 114-124), parameterised by
`pnOk`, the external phone-number library test under the default region
"KE": `pnOk p = true` models `pn.parse(p, "KE")` succeeding and
`pn.is_valid_number` holding on the result; a parse exception and an invalid
parse both yield `False` in the source, so both are `pnOk p = false`. -/
def is_valid_safaricom_phone (pnOk : String → Bool) (phone : String) : Bool :=
  if normalize_phone phone = "" ∨ (normalize_phone phone).data.length < 10 then false
  else if pnOk (normalize_phone phone) then
    decide (String.mk ((normalize_phone phone).data.take 4) ∈ SAFARICOM_PREFIXES)
  else false

/-- Modelled from the spec: the external regional phone-number library check
(the `phonenumbers` package is not part of src/).  Following §4.1 and the
Glossary, a normalized Kenyan mobile number passes the library when it is
exactly ten digits beginning with "07" or "01". -/
def pnOkKE (p : String) : Bool :=
  (p.data.length == 10) && p.data.all Char.isDigit &&
  (p.data.take 2 == ['0', '7'] || p.data.take 2 == ['0', '1'])

/-- C3: `is_valid_safaricom_phone` first normalizes its input; it returns
false when the normalized string is empty or shorter than ten characters,
false when the regional library deems the number invalid, and otherwise
returns true exactly when the first four characters of the normalized string
are in the carrier allow-list.  "0712345678" is accepted and "0700000000"
rejected (under the spec-modelled library check). -/
theorem C3_is_valid_safaricom_phone :
    (∀ (pnOk : String → Bool) (s : String),
      ((normalize_phone s = "" ∨ (normalize_phone s).data.length < 10) →
        is_valid_safaricom_phone pnOk s = false) ∧
      (pnOk (normalize_phone s) = false → is_valid_safaricom_phone pnOk s = false) ∧
      (normalize_phone s ≠ "" → 10 ≤ (normalize_phone s).data.length →
        pnOk (normalize_phone s) = true →
        (is_valid_safaricom_phone pnOk s = true ↔
          String.mk ((normalize_phone s).data.take 4) ∈ SAFARICOM_PREFIXES))) ∧
    is_valid_safaricom_phone pnOkKE "0712345678" = true ∧
    is_valid_safaricom_phone pnOkKE "0700000000" = false := by
  refine ⟨?_, by decide, by decide⟩
  intro pnOk s
  refine ⟨?_, ?_, ?_⟩
  · intro h
    unfold is_valid_safaricom_phone
    rw [if_pos h]
  · intro h
    simp [is_valid_safaricom_phone, h]
  · intro hne hlen hok
    have hb : ¬((normalize_phone s).data.length < 10) := by omega
    simp [is_valid_safaricom_phone, hne, hb, hok]
    intro _
    exact hlen

/-- C3 witness: the acceptance of "0712345678" derived from the clauses of
the characterization. -/
theorem C3_witness : is_valid_safaricom_phone pnOkKE "0712345678" = true :=
  ((C3_is_valid_safaricom_phone.1 pnOkKE "0712345678").2.2 (by decide) (by decide)
    (by decide)).mpr (by decide)

/-! ## The persistence store, external collaborators and HTTP workflows

`User` rows (src/models.py lines 74-86) are reduced to the fields the auth
core reads or writes; ids model the store's autoincrement as successive
naturals (the core never deletes accounts).  A handler returns
`Option (HttpReply × Store)`: `some` is the JSON reply together with the
store after the request, `none` is an exception escaping the handler
(surfaced by the framework as an internal error). -/

/-- Truthiness of an optional string in Python: `None` and `""` are falsy. -/
def strTruthy : Option String → Bool
  | none => false
  | some s => !(s == "")

/-- Python's `str.capitalize`: first character upper-cased, the rest
lower-cased. -/
def pyCapitalize (s : String) : String :=
  match s.data with
  | [] => ""
  | c :: cs => String.mk (c.toUpper :: cs.map Char.toLower)

/-- The fields of a `users` row that the auth core touches
(src/models.py lines 74-86). -/
structure RegUser where
  id : Nat
  email : String
  phone_number : String
  password : String
  userfullnames : Option String
  role : String
deriving DecidableEq

/-- The persistence store seen by the auth core: the `users` table. -/
abbrev Store := List RegUser

/-- A JSON body reduced to its message field, together with the HTTP
status. -/
structure HttpReply where
  status : Nat
  msg : String
deriving DecidableEq

/-- The external collaborators of the auth core, as opaque parameters:
`emailOk` is `is_valid_email` (src/auth.py lines 88-93, wrapping the
`email_validator` package with deliverability checking); `pnOk` is the
`phonenumbers` check of `is_valid_safaricom_phone`; `hash` is werkzeug's
`generate_password_hash`; `checkHash` is werkzeug's
`check_password_hash` (first argument the stored hash); `sign` is
`create_access_token` of flask_jwt_extended applied to the identity
string and the email and role claims. -/
structure Ext where
  emailOk : String → Bool
  pnOk : String → Bool
  hash : String → String
  checkHash : String → String → Bool
  sign : String → String → String → String

/-- `generate_token` (src/auth.py lines 21-29): a token over the stringified
user id with email and role claims. -/
def generate_token (ext : Ext) (u : RegUser) : String :=
  ext.sign (toString u.id) u.email u.role

/-- The JSON body of a registration-style request, each field as returned
by `data.get` (`none` when the key is absent). -/
structure RegRequest where
  email : Option String
  phone : Option String
  password : Option String
  userfullnames : Option String
deriving DecidableEq

/-- `register` (src/auth.py lines 129-155), the self-service `/register`
handler.  A `none` email reaches `validate_email`, which raises an error
the handler does not catch (it catches only `EmailNotValidError`); a `none`
password reaches `re.match`, which raises `TypeError`; a `none`
userfullnames reaches the commit, where the NOT NULL constraint on
`users.userfullnames` (src/models.py line 77) raises an uncaught
`IntegrityError`: all three are modelled as `none`, an exception escaping
the handler.  A `none` or empty phone is falsy and yields the invalid-phone
400.  The duplicate check runs two existence queries combined with `or`;
role is fixed to "PATIENT". -/
def register (ext : Ext) (req : RegRequest) (st : Store) : Option (HttpReply × Store) :=
  match req.email with
  | none => none
  | some email =>
  if !(ext.emailOk email) then some (⟨400, "Invalid email address"⟩, st) else
  if !(strTruthy req.phone) || !(is_valid_safaricom_phone ext.pnOk (req.phone.getD "")) then
    some (⟨400, "Invalid phone number. Must be a valid Safaricom number."⟩, st) else
  match req.password with
  | none => none
  | some password =>
  if !(validate_password password) then
    some (⟨400, "Password must be at least 8 characters long, contain letters and numbers"⟩, st) else
  if st.any (fun u => u.email == email) || st.any (fun u => u.phone_number == req.phone.getD "") then
    some (⟨400, "Email or phone number already registered"⟩, st) else
  match req.userfullnames with
  | none => none
  | some userfullnames =>
  some (⟨201, "User registered successfully"⟩,
    st ++ [⟨st.length + 1, email, req.phone.getD "", ext.hash password,
           some userfullnames, "PATIENT"⟩])

/-- `register_admin` (src/auth.py lines 157-183), the body of
`/admin/register-admin` (its `role_required('ADMIN')` gate is modelled
separately by `role_required`).  Unlike `register_user` it performs no
required-fields check and has no try/except around the commit: a `none`
phone flows into `normalize_phone`, whose falsiness test turns it into
`""`; a `none` userfullnames reaches the commit, where the NOT NULL
constraint on `users.userfullnames` (src/models.py line 77) raises an
uncaught `IntegrityError`, modelled as `none` — while an empty-string
userfullnames satisfies the constraint and is persisted. -/
def register_admin (ext : Ext) (req : RegRequest) (st : Store) : Option (HttpReply × Store) :=
  match req.email with
  | none => none
  | some email =>
  if !(ext.emailOk email) then some (⟨400, "Invalid email address"⟩, st) else
  if !(is_valid_safaricom_phone ext.pnOk (req.phone.getD "")) then
    some (⟨400, "Invalid phone number. Must be a valid Safaricom number."⟩, st) else
  match req.password with
  | none => none
  | some password =>
  if !(validate_password password) then
    some (⟨400, "Password must be at least 8 characters long, contain letters and numbers"⟩, st) else
  if st.any (fun u => u.email == email) || st.any (fun u => u.phone_number == req.phone.getD "") then
    some (⟨400, "Email or phone number already registered"⟩, st) else
  match req.userfullnames with
  | none => none
  | some userfullnames =>
  some (⟨201, "Admin registered successfully"⟩,
    st ++ [⟨st.length + 1, email, req.phone.getD "", ext.hash password,
           some userfullnames, "ADMIN"⟩])

/-- `register_user` (src/auth.py lines 203-233), the shared body of the
doctor/nurse/receptionist admin registration routes: a required-fields
check (Python falsiness: absent or empty), then the same validation,
duplicate and persistence steps, with the success message built from
`role.capitalize()`.  The try/except around the commit reports persistence
failure as a 500 after rollback; the commit itself is modelled as always
succeeding, so that branch does not appear. -/
def register_user (ext : Ext) (role : String) (req : RegRequest) (st : Store) :
    Option (HttpReply × Store) :=
  if !(strTruthy req.email && strTruthy req.phone && strTruthy req.password &&
       strTruthy req.userfullnames) then
    some (⟨400, "Email, phone, password, and full names are required"⟩, st)
  else match req.email, req.phone, req.password, req.userfullnames with
  | some email, some phone, some password, some userfullnames =>
    if !(ext.emailOk email) then some (⟨400, "Invalid email address"⟩, st) else
    if !(is_valid_safaricom_phone ext.pnOk phone) then
      some (⟨400, "Invalid phone number. Must be a valid Safaricom number."⟩, st) else
    if !(validate_password password) then
      some (⟨400, "Password must be at least 8 characters long, contain letters and numbers"⟩, st) else
    if st.any (fun u => u.email == email) || st.any (fun u => u.phone_number == phone) then
      some (⟨400, "Email or phone number already registered"⟩, st) else
    some (⟨201, pyCapitalize role ++ " registered successfully"⟩,
      st ++ [⟨st.length + 1, email, phone, ext.hash password, some userfullnames, role⟩])
  | _, _, _, _ => none

/-- `register_doctor` (src/auth.py lines 185-189). -/
def register_doctor (ext : Ext) (req : RegRequest) (st : Store) : Option (HttpReply × Store) :=
  register_user ext "DOCTOR" req st

/-- `register_nurse` (src/auth.py lines 191-195). -/
def register_nurse (ext : Ext) (req : RegRequest) (st : Store) : Option (HttpReply × Store) :=
  register_user ext "NURSE" req st

/-- `register_receptionist` (src/auth.py lines 197-201). -/
def register_receptionist (ext : Ext) (req : RegRequest) (st : Store) : Option (HttpReply × Store) :=
  register_user ext "RECEPTIONIST" req st

/-! ## Role gate, OAuth callback, password reset, login -/

/-- Outcome of the role gate around a handler. -/
inductive GateOutcome
  | denied (status : Nat) (msg : String)
  | allowed
deriving DecidableEq

/-- `role_required` (src/auth.py lines 73-86): after `verify_jwt_in_request`
has accepted the token as structurally valid, the wrapper reads the claims
dictionary (modelled as an association list) and fails closed with a 403
unless the role claim is present and exactly equals the required role, in
which case the wrapped handler runs (`allowed`). -/
def role_required (required_role : String) (claims : List (String × String)) : GateOutcome :=
  match claims.lookup "role" with
  | none => GateOutcome.denied 403 "Forbidden: Access Denied"
  | some r => if r ≠ required_role then GateOutcome.denied 403 "Forbidden: Access Denied"
              else GateOutcome.allowed

/-- The browser session as seen by the OAuth flow, reduced to the
`oauth_state` key (the callback's other session writes touch only the
`user_id`, `user_email` and `user_role` keys). -/
structure OAuthSession where
  oauth_state : Option String
deriving DecidableEq

/-- `google_callback` (src/auth.py lines 39-71) up to its CSRF gate:
`session.pop("oauth_state", None)` consumes the stored state
unconditionally, then the request is rejected with the 400 CSRF error
unless both states are truthy and exactly equal.  `rest` abstracts lines
48-69 (authorization-code exchange, user-info fetch, account resolution,
token issuance), which run only when the gate passes — so the rejection is
independent of the authorization code. -/
def google_callback (received_state : Option String) (sess : OAuthSession)
    (rest : Unit → HttpReply) : HttpReply × OAuthSession :=
  let stored_state := sess.oauth_state
  if strTruthy stored_state && strTruthy received_state &&
     (stored_state == received_state) then
    (rest (), ⟨none⟩)
  else
    (⟨400, "Invalid state, possible CSRF attack"⟩, ⟨none⟩)

/-- A password-reset token as the itsdangerous serializer sees it: the
embedded email, the embedding time, and whether the signature (over payload
and salt) verifies. -/
structure ResetToken where
  email : String
  issued_at : Nat
  sig_valid : Bool
deriving DecidableEq

/-- Modelled from the spec: `URLSafeTimedSerializer.loads` with `max_age`
(the itsdangerous package is not part of src/).  Per §3 and §4.6, validity
is purely cryptographic/time-based: the signature must verify and the token
must be no older than `max_age` seconds; tampered or expired tokens fail
uniformly (the source turns any `loads` exception into the same reply). -/
def serializer_loads (tok : ResetToken) (now : Nat) (max_age : Nat) : Option String :=
  if tok.sig_valid = true ∧ now ≤ tok.issued_at + max_age then some tok.email else none

/-- Replacement of the first user matching `p` (SQLAlchemy's `.first()`
followed by an attribute write and commit). -/
def updateFirst (p : RegUser → Bool) (f : RegUser → RegUser) : Store → Store
  | [] => []
  | u :: us => if p u then f u :: us else u :: updateFirst p f us

/-- `reset_password` (src/auth.py lines 285-308): the token is decoded with
a maximum age of 3600 seconds, any failure giving the uniform 400; a falsy
or short password gives a 400; an unknown email gives a 404; otherwise the
first matching user's password hash is overwritten and committed, with a
200. -/
def reset_password (ext : Ext) (tok : ResetToken) (now : Nat) (password : Option String)
    (st : Store) : HttpReply × Store :=
  match serializer_loads tok now 3600 with
  | none => (⟨400, "Invalid or expired token"⟩, st)
  | some email =>
    if strTruthy password = false ∨ (password.getD "").data.length < 6 then
      (⟨400, "Password must be at least 6 characters long"⟩, st)
    else
      match st.find? (fun u => u.email == email) with
      | none => (⟨404, "User not found"⟩, st)
      | some _ =>
        (⟨200, "Password reset successful"⟩,
         updateFirst (fun u => u.email == email)
           (fun u => { u with password := ext.hash (password.getD "") }) st)

/-- The JSON body of a `/login` response (src/auth.py lines 235-257):
either the error object or the success object carrying the access token
and the user's id, email and role. -/
inductive LoginBody
  | err (msg : String)
  | success (message : String) (access_token : String) (id : Nat) (email : String) (role : String)
deriving DecidableEq

/-- `login` (src/auth.py lines 235-257): missing or empty credentials give
a 400; an unknown email, and a known email with a failing password check,
both give the same 401 body; otherwise a token is issued with a 200. -/
def login (ext : Ext) (email password : Option String) (st : Store) : Nat × LoginBody :=
  if !(strTruthy email && strTruthy password) then
    (400, LoginBody.err "Email and password are required")
  else
    match st.find? (fun u => u.email == email.getD "") with
    | none => (401, LoginBody.err "Invalid email or password")
    | some u =>
      if !(ext.checkHash u.password (password.getD "")) then
        (401, LoginBody.err "Invalid email or password")
      else
        (200, LoginBody.success "Login successful" (generate_token ext u) u.id u.email u.role)

/-! ## Concrete instantiation of the external collaborators, for witnesses -/

/-- A concrete `Ext` for evaluating the workflows on closed inputs: an
email validator accepting everything, the spec-modelled phone library,
an identity hash with equality as hash check, and a concatenating signer. -/
def extDemo : Ext :=
  ⟨fun _ => true, pnOkKE, fun s => s, fun h p => h == p,
   fun i e r => i ++ ":" ++ e ++ ":" ++ r⟩

theorem is_valid_safaricom_phone_emptystr (pnOk : String → Bool) :
    is_valid_safaricom_phone pnOk "" = false := by
  simp [is_valid_safaricom_phone, normalize_phone]

/-- C4: when all submitted fields pass validation and some stored account
already has the submitted email or already has the submitted phone number,
`register` answers the same undifferentiated 400 conflict reply in either
case and leaves the store unchanged — the conflict is detected before any
mutation. -/
theorem C4_register_conflict (ext : Ext) (req : RegRequest) (st : Store)
    (email phone password : String)
    (he : req.email = some email) (hp : req.phone = some phone)
    (hpw : req.password = some password)
    (hev : ext.emailOk email = true)
    (hpv : is_valid_safaricom_phone ext.pnOk phone = true)
    (hpwv : validate_password password = true)
    (hdup : (∃ u ∈ st, u.email = email) ∨ (∃ u ∈ st, u.phone_number = phone)) :
    register ext req st = some (⟨400, "Email or phone number already registered"⟩, st) := by
  have hpne : phone ≠ "" := by
    intro h
    rw [h, is_valid_safaricom_phone_emptystr] at hpv
    exact Bool.noConfusion hpv
  have hb : (phone == "") = false := beq_eq_false_iff_ne.mpr hpne
  have hdup' : (st.any (fun u => u.email == email) ||
      st.any (fun u => u.phone_number == phone)) = true := by
    rw [Bool.or_eq_true, List.any_eq_true, List.any_eq_true]
    rcases hdup with ⟨u, hu, h⟩ | ⟨u, hu, h⟩
    · exact Or.inl ⟨u, hu, by simp [h]⟩
    · exact Or.inr ⟨u, hu, by simp [h]⟩
  obtain ⟨e, p, pw, uf⟩ := req
  simp only [RegRequest.mk.injEq] at he hp hpw
  subst he; subst hp; subst hpw
  simp [register, strTruthy, hb, hev, hpv, hpwv, hdup']

/-- C4 witness: a conflicting registration on a one-user store. -/
theorem C4_witness :
    register extDemo ⟨some "a@b.co", some "0712345678", some "abc12345", some "Alice"⟩
        [⟨1, "a@b.co", "0799999999", "x", some "A", "PATIENT"⟩] =
      some (⟨400, "Email or phone number already registered"⟩,
            [⟨1, "a@b.co", "0799999999", "x", some "A", "PATIENT"⟩]) :=
  C4_register_conflict extDemo _ _ "a@b.co" "0712345678" "abc12345" rfl rfl rfl
    (by decide) (by decide) (by decide)
    (Or.inl ⟨⟨1, "a@b.co", "0799999999", "x", some "A", "PATIENT"⟩, by simp, rfl⟩)

/-- C5 (amended): whenever all four fields are present and nonempty,
`register_admin` produces exactly the outcomes of `register_user` applied
with role ADMIN, and the doctor/nurse/receptionist variants are
`register_user` applied with their fixed role; when a field is missing or
empty, `register_user` answers the required-fields 400 while
`register_admin` performs no such check — with an empty full-names field it
registers the account, with an absent one the commit raises uncaught — and
only `register_user` catches persistence failure. -/
theorem C5_register_admin_refines_register_user (ext : Ext) (req : RegRequest) (st : Store)
    (h1 : strTruthy req.email = true) (h2 : strTruthy req.phone = true)
    (h3 : strTruthy req.password = true) (h4 : strTruthy req.userfullnames = true) :
    register_admin ext req st = register_user ext "ADMIN" req st ∧
    register_doctor ext req st = register_user ext "DOCTOR" req st ∧
    register_nurse ext req st = register_user ext "NURSE" req st ∧
    register_receptionist ext req st = register_user ext "RECEPTIONIST" req st := by
  refine ⟨?_, rfl, rfl, rfl⟩
  obtain ⟨e, p, pw, uf⟩ := req
  cases e with
  | none => exact absurd h1 (by simp [strTruthy])
  | some e =>
  cases p with
  | none => exact absurd h2 (by simp [strTruthy])
  | some p =>
  cases pw with
  | none => exact absurd h3 (by simp [strTruthy])
  | some pw =>
  cases uf with
  | none => exact absurd h4 (by simp [strTruthy])
  | some uf =>
  have hcap : pyCapitalize "ADMIN" ++ " registered successfully"
      = "Admin registered successfully" := by decide
  simp only [register_admin, register_user, h1, h2, h3, h4, Bool.and_self,
    Bool.and_true, Bool.true_and, Bool.not_true, Option.getD_some, hcap]
  rfl

/-- C5 counterexample: with the full-names field present but empty (and all
other fields valid), `register_user` with role ADMIN answers the
required-fields 400 (Python falsiness of `""`) and leaves the store
unchanged, while `register_admin` performs no required-fields check and
persists the account with a 201 (the empty string satisfies the NOT NULL
constraint) — the two variants do not produce the same outcomes. -/
theorem C5_counterexample :
    register_user extDemo "ADMIN"
        ⟨some "a@b.co", some "0712345678", some "abc12345", some ""⟩ [] =
      some (⟨400, "Email, phone, password, and full names are required"⟩, []) ∧
    register_admin extDemo
        ⟨some "a@b.co", some "0712345678", some "abc12345", some ""⟩ [] =
      some (⟨201, "Admin registered successfully"⟩,
            [⟨1, "a@b.co", "0712345678", "abc12345", some "", "ADMIN"⟩]) ∧
    register_user extDemo "ADMIN"
        ⟨some "a@b.co", some "0712345678", some "abc12345", some ""⟩ [] ≠
      register_admin extDemo
        ⟨some "a@b.co", some "0712345678", some "abc12345", some ""⟩ [] :=
  ⟨by decide, by decide, by decide⟩

/-- C5 witness: with every field present the two handlers agree. -/
theorem C5_witness :
    register_admin extDemo
        ⟨some "a@b.co", some "0712345678", some "abc12345", some "Alice"⟩ [] =
      register_user extDemo "ADMIN"
        ⟨some "a@b.co", some "0712345678", some "abc12345", some "Alice"⟩ [] :=
  (C5_register_admin_refines_register_user extDemo
    ⟨some "a@b.co", some "0712345678", some "abc12345", some "Alice"⟩ []
    (by decide) (by decide) (by decide) (by decide)).1

/-- C6: for every required role and structurally valid token, the role gate
invokes the wrapped handler exactly when the role claim is present and
equals the required role, and answers the 403 Forbidden reply exactly
otherwise. -/
theorem C6_role_required (required_role : String) (claims : List (String × String)) :
    (role_required required_role claims = GateOutcome.allowed ↔
      claims.lookup "role" = some required_role) ∧
    (role_required required_role claims = GateOutcome.denied 403 "Forbidden: Access Denied" ↔
      claims.lookup "role" ≠ some required_role) := by
  unfold role_required
  cases h : claims.lookup "role" with
  | none => simp
  | some r =>
    by_cases hr : r = required_role
    · subst hr; simp
    · simp [hr, Ne.symm hr]

/-- C7: the stored OAuth state is consumed on every callback; a missing
stored state, a missing query state, or any inequality of the two
terminates with the 400 CSRF reply whatever the continuation (so whatever
the authorization code would have produced); and on the session left by any
callback, a second callback always fails the CSRF check (single use). -/
theorem C7_google_callback_csrf (received : Option String) (sess : OAuthSession)
    (rest : Unit → HttpReply) :
    ((google_callback received sess rest).2 = ⟨none⟩) ∧
    ((sess.oauth_state = none ∨ received = none ∨ sess.oauth_state ≠ received) →
      google_callback received sess rest =
        (⟨400, "Invalid state, possible CSRF attack"⟩, ⟨none⟩)) ∧
    (∀ (received2 : Option String) (rest2 : Unit → HttpReply),
      google_callback received2 (google_callback received sess rest).2 rest2 =
        (⟨400, "Invalid state, possible CSRF attack"⟩, ⟨none⟩)) := by
  have hsnd : (google_callback received sess rest).2 = ⟨none⟩ := by
    unfold google_callback
    dsimp only
    split <;> rfl
  refine ⟨hsnd, ?_, ?_⟩
  · intro h
    have hcond : (strTruthy sess.oauth_state && strTruthy received &&
        (sess.oauth_state == received)) = false := by
      rcases h with h | h | h
      · simp [h, strTruthy]
      · simp [h, strTruthy]
      · simp [beq_eq_false_iff_ne.mpr h]
    simp only [google_callback]
    rw [if_neg (by simp [hcond])]
  · intro received2 rest2
    rw [hsnd]
    simp [google_callback, strTruthy]

/-- C7 witness: a mismatched state is rejected with the CSRF reply. -/
theorem C7_witness :
    google_callback (some "a") ⟨some "b"⟩ (fun _ => ⟨200, "ok"⟩) =
      (⟨400, "Invalid state, possible CSRF attack"⟩, ⟨none⟩) :=
  (C7_google_callback_csrf (some "a") ⟨some "b"⟩ (fun _ => ⟨200, "ok"⟩)).2.1
    (Or.inr (Or.inr (by decide)))

/-- C8 counterexample: a fresh, correctly signed token whose embedded email
matches no stored account — the handler answers 404, which is neither 200
nor 400. -/
theorem C8_counterexample :
    reset_password extDemo ⟨"a@b.co", 0, true⟩ 0 (some "123456") [] =
      (⟨404, "User not found"⟩, []) := by decide

/-- C8 (amended): `reset_password` answers 200, 400 or 404: a token that is
invalid, tampered or older than 3600 seconds yields the uniform
invalid-or-expired 400; a missing, empty or shorter-than-six-character
password yields 400; a decoded email matching no account yields 404; every
other outcome is the 200 success. -/
theorem C8_reset_password_statuses (ext : Ext) (tok : ResetToken) (now : Nat)
    (password : Option String) (st : Store) :
    ((reset_password ext tok now password st).1.status = 200 ∨
     (reset_password ext tok now password st).1.status = 400 ∨
     (reset_password ext tok now password st).1.status = 404) ∧
    (serializer_loads tok now 3600 = none →
      reset_password ext tok now password st = (⟨400, "Invalid or expired token"⟩, st)) ∧
    (∀ email, serializer_loads tok now 3600 = some email →
      ((strTruthy password = false ∨ (password.getD "").data.length < 6) →
        reset_password ext tok now password st =
          (⟨400, "Password must be at least 6 characters long"⟩, st)) ∧
      (strTruthy password = true → 6 ≤ (password.getD "").data.length →
        (st.find? (fun u => u.email == email) = none →
          reset_password ext tok now password st = (⟨404, "User not found"⟩, st)) ∧
        (∀ u, st.find? (fun u => u.email == email) = some u →
          (reset_password ext tok now password st).1 = ⟨200, "Password reset successful"⟩))) := by
  refine ⟨?_, ?_, ?_⟩
  · unfold reset_password
    cases serializer_loads tok now 3600 with
    | none => simp
    | some email =>
      dsimp only
      by_cases hpw : strTruthy password = false ∨ (password.getD "").data.length < 6
      · rw [if_pos hpw]
        simp
      · rw [if_neg hpw]
        cases hf : st.find? (fun u => u.email == email) <;> simp
  · intro h
    unfold reset_password
    rw [h]
  · intro email hemail
    refine ⟨?_, ?_⟩
    · intro h
      unfold reset_password
      rw [hemail]
      dsimp only
      rw [if_pos h]
    · intro ht hlen
      have hpw : ¬(strTruthy password = false ∨ (password.getD "").data.length < 6) := by
        rintro (h | h)
        · rw [ht] at h
          exact Bool.noConfusion h
        · omega
      refine ⟨?_, ?_⟩
      · intro hf
        unfold reset_password
        rw [hemail]
        dsimp only
        rw [if_neg hpw, hf]
      · intro u hf
        unfold reset_password
        rw [hemail]
        dsimp only
        rw [if_neg hpw, hf]

/-- C8 witness: a token older than 3600 seconds is rejected as invalid or
expired even though its signature verifies. -/
theorem C8_witness :
    reset_password extDemo ⟨"a@b.co", 0, true⟩ 5000 (some "123456") [] =
      (⟨400, "Invalid or expired token"⟩, []) :=
  (C8_reset_password_statuses extDemo ⟨"a@b.co", 0, true⟩ 5000 (some "123456") []).2.1
    (by decide)

/-- C9: registration persists the phone number exactly as submitted and the
duplicate check compares the raw strings: "0712345678" and
"+254712345678" normalize to the same number, yet both pass validation and
register as two distinct accounts, each storing its raw rendering. -/
theorem C9_raw_phone_registered_twice :
    normalize_phone "+254712345678" = normalize_phone "0712345678" ∧
    register extDemo
        ⟨some "alice@example.com", some "0712345678", some "abc12345", some "Alice"⟩ [] =
      some (⟨201, "User registered successfully"⟩,
        [⟨1, "alice@example.com", "0712345678", "abc12345", some "Alice", "PATIENT"⟩]) ∧
    register extDemo
        ⟨some "bob@example.com", some "+254712345678", some "abc12345", some "Bob"⟩
        [⟨1, "alice@example.com", "0712345678", "abc12345", some "Alice", "PATIENT"⟩] =
      some (⟨201, "User registered successfully"⟩,
        [⟨1, "alice@example.com", "0712345678", "abc12345", some "Alice", "PATIENT"⟩,
         ⟨2, "bob@example.com", "+254712345678", "abc12345", some "Bob", "PATIENT"⟩]) :=
  ⟨by decide, by decide, by decide⟩

/-- C10: with both credentials present and nonempty, the 401 reply for an
email matching no account is the very same status and body as the 401 reply
for a matching account with a failing password check, so a login response
does not reveal whether the account exists. -/
theorem C10_login_uniform_unauthorized (ext : Ext) (e p : String) (st : Store)
    (he : e ≠ "") (hp : p ≠ "") :
    (st.find? (fun u => u.email == e) = none →
      login ext (some e) (some p) st = (401, LoginBody.err "Invalid email or password")) ∧
    (∀ u, st.find? (fun u => u.email == e) = some u →
      ext.checkHash u.password p = false →
      login ext (some e) (some p) st = (401, LoginBody.err "Invalid email or password")) := by
  have h1 : strTruthy (some e) = true := by simp [strTruthy, he]
  have h2 : strTruthy (some p) = true := by simp [strTruthy, hp]
  constructor
  · intro hf
    simp [login, h1, h2, hf]
  · intro u hf hch
    simp [login, h1, h2, hf, hch]

/-- C10 witness: the two 401 outcomes coincide on concrete stores. -/
theorem C10_witness :
    login extDemo (some "a@b.co") (some "pw") [] =
      (401, LoginBody.err "Invalid email or password") ∧
    login extDemo (some "a@b.co") (some "pw")
        [⟨1, "a@b.co", "0712345678", "other", some "A", "PATIENT"⟩] =
      (401, LoginBody.err "Invalid email or password") :=
  ⟨(C10_login_uniform_unauthorized extDemo "a@b.co" "pw" [] (by decide) (by decide)).1
     (by decide),
   (C10_login_uniform_unauthorized extDemo "a@b.co" "pw"
      [⟨1, "a@b.co", "0712345678", "other", some "A", "PATIENT"⟩] (by decide) (by decide)).2
     ⟨1, "a@b.co", "0712345678", "other", some "A", "PATIENT"⟩ (by decide) (by decide)⟩

end HealthcareAuth
